import Mathlib

/-!
Verification of `blueprint.py`: a declarative JSON-config → external-command
compiler.  We shallowly embed the parsed configuration tree (`PyVal`), the
observable behaviour of each handler (a list of `Event`s: `print` calls and
`subprocess.run` invocations), the raised Python exceptions (`PyErr`) and the
process-wide `DRY_RUN` flag together with an oracle for the exit codes of the
external processes (`Ctx`).  Each `handle_*` function of the source is
translated into a Lean function returning the trace of events, the number of
processes launched so far, and the exception it raised (if any).
-/

namespace Blueprint

/-- A Python value as produced by `json.load`: `None`, `bool`, `int`, `float`,
`str`, `list`, `dict` (string keys, insertion order kept).  A Python `float`
is modelled by its decimal `repr` string (e.g. `"3.5"`), which is what both
`str(value)` and `json.dumps(value)` emit for a finite float; non-finite
floats are outside the model. -/
inductive PyVal where
  | null : PyVal
  | bool (b : Bool) : PyVal
  | int (n : Int) : PyVal
  | float (r : String) : PyVal
  | str (s : String) : PyVal
  | list (xs : List PyVal) : PyVal
  | dict (kvs : List (String × PyVal)) : PyVal
deriving Repr

/-- Python's `type(value).__name__` for the values we model. -/
def PyVal.typeName : PyVal → String
  | .null => "NoneType"
  | .bool _ => "bool"
  | .int _ => "int"
  | .float _ => "float"
  | .str _ => "str"
  | .list _ => "list"
  | .dict _ => "dict"

/-- Python truthiness of a value (used by the walrus-operator guards
`if x := config.get(...)`). -/
def PyVal.truthy : PyVal → Bool
  | .null => false
  | .bool b => b
  | .int n => n ≠ 0
  | .float r => ¬(r = "0.0" ∨ r = "-0.0")
  | .str s => s ≠ ""
  | .list xs => ¬xs.isEmpty
  | .dict kvs => ¬kvs.isEmpty

/-- `isinstance(value, dict)`. -/
def PyVal.isDict : PyVal → Bool
  | .dict _ => true
  | _ => false

/-- `isinstance(value, list)`. -/
def PyVal.isList : PyVal → Bool
  | .list _ => true
  | _ => false

/-- `d.get(key)` on a dict: `None`-as-`none` when the key is absent. -/
def dictGet (kvs : List (String × PyVal)) (key : String) : Option PyVal :=
  (kvs.find? (fun p => p.1 = key)).map (fun p => p.2)

/-- `d.get(key, default)` on a dict. -/
def dictGetD (kvs : List (String × PyVal)) (key : String) (dflt : PyVal) : PyVal :=
  (dictGet kvs key).getD dflt

/-- The exceptions the program can raise: `TypeError` (from `ensure_type` or
the defaults value dispatch) and `subprocess.CalledProcessError` (from
`subprocess.run(..., check=True)` on a non-zero exit code). -/
inductive PyErr where
  | typeError (msg : String) : PyErr
  | calledProcessError (returncode : Int) : PyErr
deriving Repr, DecidableEq

/-- The message `ensure_type` puts into its `TypeError`. -/
def ensureTypeMsg (expected : String) (value : PyVal) : String :=
  "Expected " ++ expected ++ ", got " ++ value.typeName

/-- An observable side effect: a `print(...)` call, or a `subprocess.run`
invocation with its full argv, optional stdin payload (`input=...`) and
whether `check=True` was passed. -/
inductive Event where
  | print (msg : String) : Event
  | run (argv : List String) (stdinPayload : Option String) (check : Bool) : Event
deriving Repr, DecidableEq

/-- `true` exactly on process invocations. -/
def Event.isRun : Event → Bool
  | .run _ _ _ => true
  | _ => false

/-- The run-wide environment: the `DRY_RUN` global, and an oracle giving the
exit code of the n-th external process launched during the run. -/
structure Ctx where
  dryRun : Bool
  exits : Nat → Int

/-- Result of a handler: events emitted, number of processes launched so far
(the index into `Ctx.exits`), and the exception that escaped, if any. -/
abbrev HRes := List Event × Nat × Option PyErr

/-! ## JSON serialisation (`json.dumps` with its defaults) -/

/-- One lowercase hexadecimal digit. -/
def hexDigit (n : Nat) : Char :=
  if n < 10 then Char.ofNat (48 + n) else Char.ofNat (87 + n)

/-- Four lowercase hexadecimal digits, zero padded (the `{:04x}` of
`json.encoder`). -/
def uhex4 (n : Nat) : String :=
  String.mk [hexDigit (n / 4096 % 16), hexDigit (n / 256 % 16),
             hexDigit (n / 16 % 16), hexDigit (n % 16)]

/-- `json.dumps` escaping of a single character with the default
`ensure_ascii=True`: the two-character escapes for `"` `\` and the control
characters with short names, `\uXXXX` (surrogate pairs above the BMP) for
every other character outside `0x20`–`0x7e`, and the character itself
otherwise. -/
def escapeChar (c : Char) : String :=
  if c = '"' then "\\\""
  else if c = '\\' then "\\\\"
  else if c = '\n' then "\\n"
  else if c = '\r' then "\\r"
  else if c = '\t' then "\\t"
  else if c.toNat = 8 then "\\b"
  else if c.toNat = 12 then "\\f"
  else if 0x20 ≤ c.toNat ∧ c.toNat ≤ 0x7e then String.singleton c
  else if c.toNat < 0x10000 then "\\u" ++ uhex4 c.toNat
  else
    "\\u" ++ uhex4 (0xd800 + (c.toNat - 0x10000) / 0x400) ++
    "\\u" ++ uhex4 (0xdc00 + (c.toNat - 0x10000) % 0x400)

/-- `json.dumps` applied to a Python `str`: the JSON string literal. -/
def jsonDumpsStr (s : String) : String :=
  "\"" ++ String.join (s.data.map escapeChar) ++ "\""

mutual

/-- `json.dumps(value)` with the default separators `", "` and `": "`. -/
def jsonDumps : PyVal → String
  | .null => "null"
  | .bool b => if b then "true" else "false"
  | .int n => toString n
  | .float r => r
  | .str s => jsonDumpsStr s
  | .list xs => "[" ++ ", ".intercalate (jsonDumpsList xs) ++ "]"
  | .dict kvs => "\x7b" ++ ", ".intercalate (jsonDumpsDict kvs) ++ "\x7d"

/-- The serialised elements of a JSON array. -/
def jsonDumpsList : List PyVal → List String
  | [] => []
  | x :: xs => jsonDumps x :: jsonDumpsList xs

/-- The serialised `"key": value` members of a JSON object. -/
def jsonDumpsDict : List (String × PyVal) → List String
  | [] => []
  | (k, v) :: kvs => (jsonDumpsStr k ++ ": " ++ jsonDumps v) :: jsonDumpsDict kvs

end

/-! ## `.system.defaults` (`handle_system_defaults`, blueprint.py lines 34–68) -/

/-- The per-value arguments appended to `["defaults", "write", namespace,
key]`, following the source's `isinstance` chain (`bool` is tested before
`int`, so a boolean never reaches the integer arm); `none` is the
`TypeError("Unsupported value type: ...")` arm. -/
def value_args : PyVal → Option (List String)
  | .bool b => some ["-bool", if b then "true" else "false"]
  | .str s => some [s]
  | .int n => some [toString n]
  | .float r => some [r]
  | _ => none

/-- The entry-collection pass of `handle_system_defaults`: flattens the
namespace → settings mapping into `(namespace, key, value)` triples, raising
`ensure_type`'s `TypeError` at the first namespace whose settings value is
not a dict. -/
def collectEntries : List (String × PyVal) → Except PyErr (List (String × String × PyVal))
  | [] => .ok []
  | (ns, settings) :: rest =>
    match settings with
    | .dict kvs =>
      (collectEntries rest).map (fun es => (kvs.map (fun p => (ns, p.1, p.2))) ++ es)
    | other => .error (.typeError (ensureTypeMsg "dict" other))

/-- The write loop of `handle_system_defaults`: for each entry build the
`defaults write` command, raise `TypeError` on an unsupported value type,
print the command, and (unless `DRY_RUN`) run it with `check=True`, which
raises `CalledProcessError` on a non-zero exit code. -/
def writeEntries (ctx : Ctx) (k : Nat) :
    List (String × String × PyVal) → HRes
  | [] => ([], k, none)
  | (ns, key, value) :: rest =>
    match value_args value with
    | none => ([], k, some (.typeError ("Unsupported value type: " ++ value.typeName)))
    | some extra =>
      let command := ["defaults", "write", ns, key] ++ extra
      let ev := Event.print (".system.defaults: executing " ++ " ".intercalate command)
      if ctx.dryRun then
        let r := writeEntries ctx k rest
        (ev :: r.1, r.2)
      else
        let code := ctx.exits k
        let rv := Event.run command none true
        if code = 0 then
          let r := writeEntries ctx (k + 1) rest
          (ev :: rv :: r.1, r.2)
        else
          ([ev, rv], k + 1, some (.calledProcessError code))

/-- `handle_system_defaults(config)`: `ensure_type(config, dict)`, collect
all entries, then run the write loop. -/
def handle_system_defaults (ctx : Ctx) (k : Nat) (config : PyVal) : HRes :=
  match config with
  | .dict kvs =>
    match collectEntries kvs with
    | .error e => ([], k, some e)
    | .ok entries => writeEntries ctx k entries
  | other => ([], k, some (.typeError (ensureTypeMsg "dict" other)))

/-- `handle_system(config)`: `ensure_type(config, dict)` then the walrus
guard `if defaults_config := config.get("defaults")` (a falsy value — absent
key included — skips the sub-handler). -/
def handle_system (ctx : Ctx) (k : Nat) (config : PyVal) : HRes :=
  match config with
  | .dict kvs =>
    let d := dictGetD kvs "defaults" .null
    if d.truthy then handle_system_defaults ctx k d else ([], k, none)
  | other => ([], k, some (.typeError (ensureTypeMsg "dict" other)))

/-! ## `.packages.homebrew` (`handle_packages_homebrew`, lines 80–119) -/

/-- The Brewfile lines: taps, then brews, then casks, then mas apps, each
entry serialised with `json.dumps`. -/
def brewfile_lines (taps brews casks : List PyVal)
    (masApps : List (String × PyVal)) : List String :=
  taps.map (fun t => "tap " ++ jsonDumps t) ++
  brews.map (fun b => "brew " ++ jsonDumps b) ++
  casks.map (fun c => "cask " ++ jsonDumps c) ++
  masApps.map (fun p => "mas " ++ jsonDumps (.str p.1) ++ ", id: " ++ jsonDumps p.2)

/-- The `print` message announcing the Brewfile. -/
def brewfileMsg (brewfile : String) : String :=
  ".packages.homebrew: applying Brewfile:\n---\n" ++ brewfile ++ "\n---"

/-- `handle_packages_homebrew(config)`: validate the four optional fields,
build the Brewfile, print it, and (unless `DRY_RUN`) run
`brew bundle upgrade --file=-` with the Brewfile on stdin and `check=True`,
then `brew bundle cleanup --force` without `check` (its exit code is
ignored). -/
def handle_packages_homebrew (ctx : Ctx) (k : Nat) (config : PyVal) : HRes :=
  match config with
  | .dict kvs =>
    match dictGetD kvs "taps" (.list []) with
    | .list taps =>
      match dictGetD kvs "brews" (.list []) with
      | .list brews =>
        match dictGetD kvs "casks" (.list []) with
        | .list casks =>
          match dictGetD kvs "mas_apps" (.dict []) with
          | .dict masApps =>
            let brewfile := "\n".intercalate (brewfile_lines taps brews casks masApps)
            let ev := Event.print (brewfileMsg brewfile)
            if ctx.dryRun then ([ev], k, none)
            else
              let code := ctx.exits k
              let up := Event.run ["brew", "bundle", "upgrade", "--file=-"]
                          (some brewfile) true
              if code = 0 then
                let cl := Event.run ["brew", "bundle", "cleanup", "--force"] none false
                ([ev, up, cl], k + 2, none)
              else
                ([ev, up], k + 1, some (.calledProcessError code))
          | other => ([], k, some (.typeError (ensureTypeMsg "dict" other)))
        | other => ([], k, some (.typeError (ensureTypeMsg "list" other)))
      | other => ([], k, some (.typeError (ensureTypeMsg "list" other)))
    | other => ([], k, some (.typeError (ensureTypeMsg "list" other)))
  | other => ([], k, some (.typeError (ensureTypeMsg "dict" other)))

/-- `handle_packages(config)`: `ensure_type` then the walrus guard on
`config.get("homebrew")`. -/
def handle_packages (ctx : Ctx) (k : Nat) (config : PyVal) : HRes :=
  match config with
  | .dict kvs =>
    let h := dictGetD kvs "homebrew" .null
    if h.truthy then handle_packages_homebrew ctx k h else ([], k, none)
  | other => ([], k, some (.typeError (ensureTypeMsg "dict" other)))

/-! ## `.programs` (lines 125–132) -/

/-- `handle_programs_git(config)`: the body is `pass` — no validation, no
events, no exception, for any input. -/
def handle_programs_git (_ctx : Ctx) (k : Nat) (_config : PyVal) : HRes :=
  ([], k, none)

/-- `handle_programs(config)`: `ensure_type` then the walrus guard on
`config.get("git")`. -/
def handle_programs (ctx : Ctx) (k : Nat) (config : PyVal) : HRes :=
  match config with
  | .dict kvs =>
    let g := dictGetD kvs "git" .null
    if g.truthy then handle_programs_git ctx k g else ([], k, none)
  | other => ([], k, some (.typeError (ensureTypeMsg "dict" other)))

/-! ## Orchestrator (`main`, lines 146–155, after the file is loaded) -/

/-- The part of `main` that runs on the parsed config:
`ensure_type(config, dict)`, then the three walrus-guarded dispatches in the
fixed order `system`, `packages`, `programs`; an exception from one handler
aborts the run before the later handlers. -/
def main (ctx : Ctx) (k : Nat) (config : PyVal) : HRes :=
  match config with
  | .dict kvs =>
    let s := dictGetD kvs "system" .null
    let r1 := if s.truthy then handle_system ctx k s else ([], k, none)
    if r1.2.2.isSome then r1
    else
      let p := dictGetD kvs "packages" .null
      let r2 := if p.truthy then handle_packages ctx r1.2.1 p else ([], r1.2.1, none)
      if r2.2.2.isSome then (r1.1 ++ r2.1, r2.2)
      else
        let g := dictGetD kvs "programs" .null
        let r3 := if g.truthy then handle_programs ctx r2.2.1 g else ([], r2.2.1, none)
        (r1.1 ++ r2.1 ++ r3.1, r3.2)
  | other => ([], k, some (.typeError (ensureTypeMsg "dict" other)))

/-! ## Spec-side comparison definitions -/

/-- From the spec's words: a "number" (integer or floating point) and its
unquoted decimal rendering; `none` on every other value.  Used to compare
the manifest the code builds with the grammar the spec states. -/
def numDecimal : PyVal → Option String
  | .int n => some (toString n)
  | .float r => some r
  | _ => none

/-- From the spec's words (§4.2, §7): the observable events for one
well-typed `.system.defaults` entry — its description is emitted as soon as
it is compiled, and in apply mode its `defaults write` command is also
executed.  To be compared with `writeEntries`. -/
def spec_entry_events (dryRun : Bool) (e : String × String × PyVal) : List Event :=
  match value_args e.2.2 with
  | none => []
  | some extra =>
    let command := ["defaults", "write", e.1, e.2.1] ++ extra
    Event.print (".system.defaults: executing " ++ " ".intercalate command) ::
      (if dryRun then [] else [Event.run command none true])

/-! ## Helper lemmas -/

/-- In dry-run mode the defaults write loop emits no process invocation. -/
theorem writeEntries_dry_all_print (exits : Nat → Int) :
    ∀ (entries : List (String × String × PyVal)) (k : Nat),
      ((writeEntries ⟨true, exits⟩ k entries).1.all fun e => !e.isRun) = true := by
  intro entries
  induction entries with
  | nil => intro k; rfl
  | cons e rest ih =>
    intro k
    obtain ⟨ns, key, value⟩ := e
    cases h : value_args value with
    | none => simp [writeEntries, h]
    | some extra =>
      simp [writeEntries, h, Event.isRun]
      intro x hx
      have h2 := ih k
      simp [List.all_eq_true, Event.isRun] at h2
      exact h2 x hx

/-- In dry-run mode `handle_system_defaults` emits no process invocation. -/
theorem hsd_dry_all_print (exits : Nat → Int) (k : Nat) (config : PyVal) :
    ((handle_system_defaults ⟨true, exits⟩ k config).1.all fun e => !e.isRun) = true := by
  cases config <;> simp only [handle_system_defaults]
  case dict kvs =>
    cases collectEntries kvs with
    | error e => rfl
    | ok entries => exact writeEntries_dry_all_print exits entries k
  all_goals rfl

/-- In dry-run mode `handle_system` emits no process invocation. -/
theorem hs_dry_all_print (exits : Nat → Int) (k : Nat) (config : PyVal) :
    ((handle_system ⟨true, exits⟩ k config).1.all fun e => !e.isRun) = true := by
  cases config <;> simp only [handle_system]
  case dict kvs =>
    by_cases h : (dictGetD kvs "defaults" .null).truthy
    · simp only [h, if_true]
      exact hsd_dry_all_print exits k _
    · simp only [h, if_false]; rfl
  all_goals rfl

/-- In dry-run mode `handle_packages_homebrew` emits no process
invocation. -/
theorem hpb_dry_all_print (exits : Nat → Int) (k : Nat) (config : PyVal) :
    ((handle_packages_homebrew ⟨true, exits⟩ k config).1.all fun e => !e.isRun) = true := by
  cases config <;> simp only [handle_packages_homebrew]
  case dict kvs =>
    cases dictGetD kvs "taps" (.list []) <;> try rfl
    cases dictGetD kvs "brews" (.list []) <;> try rfl
    cases dictGetD kvs "casks" (.list []) <;> try rfl
    cases dictGetD kvs "mas_apps" (.dict []) <;> rfl
  all_goals rfl

/-- In dry-run mode `handle_packages` emits no process invocation. -/
theorem hp_dry_all_print (exits : Nat → Int) (k : Nat) (config : PyVal) :
    ((handle_packages ⟨true, exits⟩ k config).1.all fun e => !e.isRun) = true := by
  cases config <;> simp only [handle_packages]
  case dict kvs =>
    by_cases h : (dictGetD kvs "homebrew" .null).truthy
    · simp only [h, if_true]
      exact hpb_dry_all_print exits k _
    · simp only [h, if_false]; rfl
  all_goals rfl

/-- `handle_programs` emits no process invocation in any mode. -/
theorem hpr_all_print (ctx : Ctx) (k : Nat) (config : PyVal) :
    ((handle_programs ctx k config).1.all fun e => !e.isRun) = true := by
  cases config <;> simp only [handle_programs]
  case dict kvs =>
    by_cases h : (dictGetD kvs "git" .null).truthy
    · simp only [h, if_true]; rfl
    · simp only [h, if_false]; rfl
  all_goals rfl

/-- Serialising a list of Python strings prefixed by a tag: `json.dumps` on
a `str` is exactly the JSON string literal. -/
theorem map_jsonDumps_str (tag : String) (ts : List String) :
    (ts.map PyVal.str).map (fun t => tag ++ jsonDumps t) =
      ts.map (fun t => tag ++ jsonDumpsStr t) := by
  induction ts with
  | nil => rfl
  | cons t ts ih =>
    simp only [List.map_cons, ih]
    rfl

/-- On a mas-apps mapping whose values are all numbers, the `mas` lines
carry the unquoted decimal of each id. -/
theorem map_mas_numeric (mas : List (String × PyVal))
    (h : ∀ p ∈ mas, (numDecimal p.2).isSome = true) :
    mas.map (fun p => "mas " ++ jsonDumps (.str p.1) ++ ", id: " ++ jsonDumps p.2) =
      mas.map (fun p => "mas " ++ jsonDumpsStr p.1 ++ ", id: " ++ (numDecimal p.2).getD "") := by
  induction mas with
  | nil => rfl
  | cons p rest ih =>
    have h1 := h p (List.mem_cons_self p rest)
    have h2 : jsonDumps p.2 = (numDecimal p.2).getD "" := by
      cases hp : p.2 <;> simp_all [numDecimal, jsonDumps]
    simp only [List.map_cons, h2]
    rw [ih (fun q hq => h q (List.mem_cons_of_mem _ hq))]
    rfl

/-- If some namespace maps to a non-dict, the entry-collection pass fails
with a `TypeError`. -/
theorem collectEntries_error_of_nondict :
    ∀ kvs : List (String × PyVal), (∃ p ∈ kvs, p.2.isDict = false) →
      ∃ m, collectEntries kvs = .error (.typeError m) := by
  intro kvs
  induction kvs with
  | nil => rintro ⟨p, hp, _⟩; cases hp
  | cons q rest ih =>
    rintro ⟨p, hp, hd⟩
    obtain ⟨ns, settings⟩ := q
    by_cases hq : settings.isDict
    · obtain ⟨skvs, rfl⟩ : ∃ skvs, settings = PyVal.dict skvs := by
        cases settings <;> simp_all [PyVal.isDict]
      rcases List.mem_cons.mp hp with rfl | hmem
      · simp [PyVal.isDict] at hd
      · obtain ⟨m, hm⟩ := ih ⟨p, hmem, hd⟩
        refine ⟨m, ?_⟩
        simp [collectEntries, hm, Except.map]
    · refine ⟨ensureTypeMsg "dict" settings, ?_⟩
      cases settings <;> simp_all [collectEntries, PyVal.isDict]

/-- The defaults write loop on a prefix of supported entries, when no
external process fails (dry-run, or all exit codes zero): the prefix
contributes exactly the spec's per-entry events and (in apply mode) one
process launch per entry, and the loop then continues with the rest. -/
theorem writeEntries_append_ok (ctx : Ctx)
    (hex : ctx.dryRun = true ∨ ∀ i, ctx.exits i = 0) :
    ∀ (pre rest : List (String × String × PyVal)) (k : Nat),
      (∀ e ∈ pre, (value_args e.2.2).isSome = true) →
      writeEntries ctx k (pre ++ rest) =
        ((pre.map (spec_entry_events ctx.dryRun)).flatten ++
           (writeEntries ctx (k + if ctx.dryRun then 0 else pre.length) rest).1,
         (writeEntries ctx (k + if ctx.dryRun then 0 else pre.length) rest).2) := by
  intro pre
  induction pre with
  | nil => intro rest k _; simp
  | cons e pre ih =>
    intro rest k h
    obtain ⟨ns, key, v⟩ := e
    obtain ⟨extra, hv⟩ := Option.isSome_iff_exists.mp
      (h _ (List.mem_cons_self _ _))
    have hpre := fun q hq => h q (List.mem_cons_of_mem _ hq)
    by_cases hdry : ctx.dryRun
    · have step : writeEntries ctx k ((ns, key, v) :: (pre ++ rest)) =
          (Event.print (".system.defaults: executing " ++
              " ".intercalate (["defaults", "write", ns, key] ++ extra)) ::
             (writeEntries ctx k (pre ++ rest)).1,
           (writeEntries ctx k (pre ++ rest)).2) := by
        simp [writeEntries, hv, hdry]
      rw [List.cons_append, step, ih rest k hpre]
      simp [spec_entry_events, hv, hdry, List.append_assoc]
    · have hz : ctx.exits k = 0 := by
        rcases hex with h1 | h1
        · exact absurd h1 hdry
        · exact h1 k
      have step : writeEntries ctx k ((ns, key, v) :: (pre ++ rest)) =
          (Event.print (".system.defaults: executing " ++
              " ".intercalate (["defaults", "write", ns, key] ++ extra)) ::
             Event.run (["defaults", "write", ns, key] ++ extra) none true ::
             (writeEntries ctx (k + 1) (pre ++ rest)).1,
           (writeEntries ctx (k + 1) (pre ++ rest)).2) := by
        simp [writeEntries, hv, hdry, hz]
      rw [List.cons_append, step, ih rest (k + 1) hpre]
      simp [spec_entry_events, hv, hdry, List.append_assoc,
        Nat.add_assoc, Nat.add_comm, Nat.add_left_comm]

/-! ## Claim theorems -/

/-- C6: For every configuration and every action, when the execution mode is
dry-run, no external process is ever invoked anywhere in the run: each
action is only described (printed) and execution is skipped. -/
theorem C6_dry_run_no_process (exits : Nat → Int) (k : Nat) (config : PyVal) :
    ((main ⟨true, exits⟩ k config).1.all fun e => !e.isRun) = true := by
  cases config <;> try rfl
  case dict kvs =>
    simp only [main]
    repeat' split
    all_goals
      simp [List.all_append, hs_dry_all_print, hp_dry_all_print, hpr_all_print]

/-- C7: For every valid configuration in which the `system`, `packages` and
`programs` sections are each absent or an empty mapping, the run produces no
event at all (nothing described, nothing executed) and finishes without an
exception, in both dry-run and apply mode (any `ctx`). -/
theorem C7_empty_sections_success (ctx : Ctx) (k : Nat) (kvs : List (String × PyVal))
    (hs : dictGet kvs "system" = none ∨ dictGet kvs "system" = some (.dict []))
    (hp : dictGet kvs "packages" = none ∨ dictGet kvs "packages" = some (.dict []))
    (hg : dictGet kvs "programs" = none ∨ dictGet kvs "programs" = some (.dict [])) :
    main ctx k (.dict kvs) = ([], k, none) := by
  have ts : (dictGetD kvs "system" .null).truthy = false := by
    rcases hs with h | h <;> simp [dictGetD, h, PyVal.truthy]
  have tp : (dictGetD kvs "packages" .null).truthy = false := by
    rcases hp with h | h <;> simp [dictGetD, h, PyVal.truthy]
  have tg : (dictGetD kvs "programs" .null).truthy = false := by
    rcases hg with h | h <;> simp [dictGetD, h, PyVal.truthy]
  simp [main, ts, tp, tg]

/-- C7 witness: a config with an empty `system` mapping, `packages` absent
and an empty `programs` mapping, in apply mode. -/
theorem C7_empty_sections_success_witness :
    main ⟨false, fun _ => 0⟩ 5
      (.dict [("system", .dict []), ("programs", .dict []), ("extra", .int 1)]) =
      ([], 5, none) :=
  C7_empty_sections_success ⟨false, fun _ => 0⟩ 5 _
    (Or.inr rfl) (Or.inl rfl) (Or.inr rfl)

/-- C3 counterexample: `handle_programs_git` performs no validation at all —
on the non-mapping input `"hello"` it raises no shape/type error and simply
returns, contradicting the claim that it fails on every non-mapping
input. -/
theorem C3_git_no_validation_cex :
    handle_programs_git ⟨true, fun _ => 0⟩ 0 (PyVal.str "hello") = ([], 0, none) := rfl

/-- C3 amended: for every input value — of any type, mapping or not — the
programs/git compiler produces no actions, emits no event and raises no
error; it performs no top-level shape validation before no-op-ing.  Stated
through `handle_programs`: whatever value sits under the `git` key, the
programs domain yields `([], k, none)`. -/
theorem C3_git_noop_amended (ctx : Ctx) (k : Nat) (kvs : List (String × PyVal))
    (v : PyVal) (h : dictGet kvs "git" = some v) :
    handle_programs ctx k (.dict kvs) = ([], k, none) := by
  by_cases ht : v.truthy <;>
    simp [handle_programs, dictGetD, h, ht, handle_programs_git]

/-- C3 amended witness: a non-mapping `git` value is silently accepted. -/
theorem C3_git_noop_witness :
    handle_programs ⟨true, fun _ => 0⟩ 0 (.dict [("git", PyVal.str "hello")]) =
      ([], 0, none) :=
  C3_git_noop_amended ⟨true, fun _ => 0⟩ 0 _ (PyVal.str "hello") rfl

/-- C4 counterexample: the key `system` is present with the non-mapping
value `[]`, yet `main` raises no `TypeError` — the walrus guard
`if system_config := config.get("system")` skips every falsy value without
validating it. -/
theorem C4_falsy_section_skipped_cex :
    main ⟨true, fun _ => 0⟩ 0 (.dict [("system", PyVal.list [])]) = ([], 0, none) := rfl

/-- C4 amended: the orchestrator processes `system`, `packages`, `programs`
in that fixed order; a key that is present with a *truthy* value is
dispatched after being checked to be a mapping (`TypeError` otherwise),
while a key that is absent or has a falsy value (`null`, `false`, `0`,
empty string/list/mapping) is skipped without validation; unknown top-level
keys are silently ignored and never an error.  Five parts: (1) a truthy
non-mapping `system` value is a `TypeError` with nothing dispatched;
(2) after the `system` step completes without error, a truthy non-mapping
`packages` value is a `TypeError` with nothing further dispatched; (3) the
same for `programs` after the first two steps; (4) if all three known keys
are absent-or-falsy the run is an event-free success, whatever other keys
are present; (5) in full generality — each section truthy or not,
independently — the run is the fixed-order composition of the three
walrus-guarded steps, concatenating their events and threading the process
counter, so any single truthy section (e.g. only `packages`) dispatches
exactly its own handler. -/
theorem C4_orchestrator_amended :
    (∀ (ctx : Ctx) (k : Nat) (kvs : List (String × PyVal)) (v : PyVal),
        dictGet kvs "system" = some v → v.truthy = true → v.isDict = false →
        main ctx k (.dict kvs) = ([], k, some (.typeError (ensureTypeMsg "dict" v)))) ∧
    (∀ (ctx : Ctx) (k : Nat) (kvs : List (String × PyVal)) (E1 : List Event)
        (k1 : Nat) (v : PyVal),
        (if (dictGetD kvs "system" .null).truthy then
            handle_system ctx k (dictGetD kvs "system" .null)
          else ([], k, none)) = (E1, k1, (none : Option PyErr)) →
        dictGet kvs "packages" = some v → v.truthy = true → v.isDict = false →
        main ctx k (.dict kvs) = (E1, k1, some (.typeError (ensureTypeMsg "dict" v)))) ∧
    (∀ (ctx : Ctx) (k : Nat) (kvs : List (String × PyVal)) (E1 E2 : List Event)
        (k1 k2 : Nat) (v : PyVal),
        (if (dictGetD kvs "system" .null).truthy then
            handle_system ctx k (dictGetD kvs "system" .null)
          else ([], k, none)) = (E1, k1, (none : Option PyErr)) →
        (if (dictGetD kvs "packages" .null).truthy then
            handle_packages ctx k1 (dictGetD kvs "packages" .null)
          else ([], k1, none)) = (E2, k2, (none : Option PyErr)) →
        dictGet kvs "programs" = some v → v.truthy = true → v.isDict = false →
        main ctx k (.dict kvs) = (E1 ++ E2, k2, some (.typeError (ensureTypeMsg "dict" v)))) ∧
    (∀ (ctx : Ctx) (k : Nat) (kvs : List (String × PyVal)),
        (dictGetD kvs "system" .null).truthy = false →
        (dictGetD kvs "packages" .null).truthy = false →
        (dictGetD kvs "programs" .null).truthy = false →
        main ctx k (.dict kvs) = ([], k, none)) ∧
    (∀ (ctx : Ctx) (k : Nat) (kvs : List (String × PyVal)) (E1 E2 E3 : List Event)
        (k1 k2 k3 : Nat) (r : Option PyErr),
        (if (dictGetD kvs "system" .null).truthy then
            handle_system ctx k (dictGetD kvs "system" .null)
          else ([], k, none)) = (E1, k1, (none : Option PyErr)) →
        (if (dictGetD kvs "packages" .null).truthy then
            handle_packages ctx k1 (dictGetD kvs "packages" .null)
          else ([], k1, none)) = (E2, k2, (none : Option PyErr)) →
        (if (dictGetD kvs "programs" .null).truthy then
            handle_programs ctx k2 (dictGetD kvs "programs" .null)
          else ([], k2, none)) = (E3, k3, r) →
        main ctx k (.dict kvs) = (E1 ++ E2 ++ E3, k3, r)) := by
  refine ⟨?_, ?_, ?_, ?_, ?_⟩
  · intro ctx k kvs v h ht hd
    have hsv : handle_system ctx k v = ([], k, some (.typeError (ensureTypeMsg "dict" v))) := by
      cases v <;> simp_all [handle_system, PyVal.isDict]
    simp [main, dictGetD, h, ht, hsv]
  · intro ctx k kvs E1 k1 v hS hget ht hd
    have hv : handle_packages ctx k1 v = ([], k1, some (.typeError (ensureTypeMsg "dict" v))) := by
      cases v <;> simp_all [handle_packages, PyVal.isDict]
    have hPv : dictGetD kvs "packages" .null = v := by simp [dictGetD, hget]
    simp [main, hS, hPv, ht, hv]
  · intro ctx k kvs E1 E2 k1 k2 v hS hP hget ht hd
    have hv : handle_programs ctx k2 v = ([], k2, some (.typeError (ensureTypeMsg "dict" v))) := by
      cases v <;> simp_all [handle_programs, PyVal.isDict]
    have hGv : dictGetD kvs "programs" .null = v := by simp [dictGetD, hget]
    simp [main, hS, hP, hGv, ht, hv]
  · intro ctx k kvs ts tp tg
    simp [main, ts, tp, tg]
  · intro ctx k kvs E1 E2 E3 k1 k2 k3 r hS hP hG
    simp [main, hS, hP, hG]

/-- C4 amended witness: a truthy non-mapping `system` value is a
`TypeError`; a truthy non-mapping `packages` value alone is equally a
`TypeError`; and a configuration with only `packages` truthy dispatches
exactly the packages handler. -/
theorem C4_orchestrator_witness :
    (main ⟨true, fun _ => 0⟩ 0 (.dict [("system", PyVal.str "x")]) =
      ([], 0, some (.typeError "Expected dict, got str"))) ∧
    (main ⟨true, fun _ => 0⟩ 0 (.dict [("packages", PyVal.str "y")]) =
      ([], 0, some (.typeError "Expected dict, got str"))) ∧
    (main ⟨true, fun _ => 0⟩ 0
        (.dict [("packages", .dict [("homebrew", .dict [("taps", .list [.str "a"])])])]) =
      ([.print (brewfileMsg "tap \"a\"")], 0, none)) :=
  ⟨C4_orchestrator_amended.1 ⟨true, fun _ => 0⟩ 0 _ (PyVal.str "x") rfl rfl rfl,
   C4_orchestrator_amended.2.1 ⟨true, fun _ => 0⟩ 0 _ [] 0 (PyVal.str "y")
     rfl rfl rfl rfl,
   C4_orchestrator_amended.2.2.2.2 ⟨true, fun _ => 0⟩ 0 _ [] [.print (brewfileMsg "tap \"a\"")]
     [] 0 0 0 none rfl rfl rfl⟩

/-- C1: For every homebrew configuration whose `taps`, `brews`, `casks` are
lists of strings and `mas_apps` maps strings to numbers, the compiled
manifest is exactly the newline-joined sequence of one line per entry, taps
then brews then casks then mas entries, each `tap <q>` / `brew <q>` /
`cask <q>` / `mas <q>, id: <id>` with `<q>` the JSON string literal and
`<id>` the unquoted decimal of the numeric id; missing fields (second
conjunct) contribute no lines. -/
theorem C1_homebrew_manifest (exits : Nat → Int) (k : Nat)
    (ts bs cs : List String) (mas : List (String × PyVal))
    (hm : ∀ p ∈ mas, (numDecimal p.2).isSome = true) :
    handle_packages_homebrew ⟨true, exits⟩ k
        (.dict [("taps", .list (ts.map PyVal.str)), ("brews", .list (bs.map PyVal.str)),
                ("casks", .list (cs.map PyVal.str)), ("mas_apps", .dict mas)]) =
      ([.print (brewfileMsg ("\n".intercalate
          (ts.map (fun t => "tap " ++ jsonDumpsStr t) ++
           bs.map (fun b => "brew " ++ jsonDumpsStr b) ++
           cs.map (fun c => "cask " ++ jsonDumpsStr c) ++
           mas.map (fun p => "mas " ++ jsonDumpsStr p.1 ++ ", id: " ++
             (numDecimal p.2).getD ""))))],
       k, none) ∧
    handle_packages_homebrew ⟨true, exits⟩ k (.dict []) =
      ([.print (brewfileMsg "")], k, none) := by
  refine ⟨?_, rfl⟩
  have e1 : brewfile_lines (ts.map PyVal.str) (bs.map PyVal.str) (cs.map PyVal.str) mas =
      ts.map (fun t => "tap " ++ jsonDumpsStr t) ++
      bs.map (fun b => "brew " ++ jsonDumpsStr b) ++
      cs.map (fun c => "cask " ++ jsonDumpsStr c) ++
      mas.map (fun p => "mas " ++ jsonDumpsStr p.1 ++ ", id: " ++
        (numDecimal p.2).getD "") := by
    unfold brewfile_lines
    rw [map_jsonDumps_str, map_jsonDumps_str, map_jsonDumps_str, map_mas_numeric mas hm]
  show ([Event.print (brewfileMsg ("\n".intercalate
          (brewfile_lines (ts.map PyVal.str) (bs.map PyVal.str) (cs.map PyVal.str) mas)))],
        k, (none : Option PyErr)) = _
  rw [e1]

/-- C1 witness: the spec's §8 example
`{"taps": ["a/b"], "brews": ["x"], "casks": [], "mas_apps": {"Foo": 123}}`. -/
theorem C1_homebrew_manifest_witness :
    handle_packages_homebrew ⟨true, fun _ => 0⟩ 0
        (.dict [("taps", .list [.str "a/b"]), ("brews", .list [.str "x"]),
                ("casks", .list []), ("mas_apps", .dict [("Foo", PyVal.int 123)])]) =
      ([.print (brewfileMsg "tap \"a/b\"\nbrew \"x\"\nmas \"Foo\", id: 123")], 0, none) :=
  (C1_homebrew_manifest (fun _ => 0) 0 ["a/b"] ["x"] [] [("Foo", PyVal.int 123)]
    (fun p hp => by rcases List.mem_singleton.mp hp with rfl; rfl)).1

/-- C2: the `defaults write` value arguments by type — boolean (tested
before the integer arm) gives `["-bool", "true"|"false"]`, string is passed
verbatim, integer and floating point give their decimal string — and the
compiled action for a single entry is `defaults` with args
`["write", namespace, key] ++ value-args`. -/
theorem C2_defaults_value_args :
    (∀ b : Bool, value_args (.bool b) = some ["-bool", if b then "true" else "false"]) ∧
    (∀ s : String, value_args (.str s) = some [s]) ∧
    (∀ n : Int, value_args (.int n) = some [toString n]) ∧
    (∀ r : String, value_args (.float r) = some [r]) ∧
    (∀ (exits : Nat → Int) (k : Nat) (ns key : String) (v : PyVal) (extra : List String),
        exits k = 0 → value_args v = some extra →
        handle_system_defaults ⟨false, exits⟩ k (.dict [(ns, .dict [(key, v)])]) =
          ([.print (".system.defaults: executing " ++
              " ".intercalate (["defaults", "write", ns, key] ++ extra)),
            .run (["defaults", "write", ns, key] ++ extra) none true], k + 1, none)) := by
  refine ⟨fun b => rfl, fun s => rfl, fun n => rfl, fun r => rfl, ?_⟩
  intro exits k ns key v extra he hv
  simp [handle_system_defaults, collectEntries, writeEntries, Except.map, hv, he]

/-- C2 witness: the spec's example `{"com.example.app": {"flag": true}}`
compiles to `defaults write com.example.app flag -bool true` — through the
boolean arm, not the integer arm. -/
theorem C2_defaults_value_args_witness :
    handle_system_defaults ⟨false, fun _ => 0⟩ 0
        (.dict [("com.example.app", .dict [("flag", .bool true)])]) =
      ([.print ".system.defaults: executing defaults write com.example.app flag -bool true",
        .run ["defaults", "write", "com.example.app", "flag", "-bool", "true"] none true],
       1, none) :=
  C2_defaults_value_args.2.2.2.2 (fun _ => 0) 0 "com.example.app" "flag"
    (.bool true) ["-bool", "true"] rfl rfl

/-- C5: a `system.defaults` entry of unsupported type raises `TypeError` at
that entry (in iteration order, with every earlier entry supported and no
earlier process failure): no event for it or for later entries, while each
earlier entry has been described and, in apply mode, executed. -/
theorem C5_defaults_unsupported_value (ctx : Ctx) (k : Nat)
    (kvs : List (String × PyVal)) (pre post : List (String × String × PyVal))
    (ns key : String) (bad : PyVal)
    (hc : collectEntries kvs = .ok (pre ++ (ns, key, bad) :: post))
    (hb : value_args bad = none)
    (hpre : ∀ e ∈ pre, (value_args e.2.2).isSome = true)
    (hex : ctx.dryRun = true ∨ ∀ i, ctx.exits i = 0) :
    handle_system_defaults ctx k (.dict kvs) =
      ((pre.map (spec_entry_events ctx.dryRun)).flatten,
       k + (if ctx.dryRun then 0 else pre.length),
       some (.typeError ("Unsupported value type: " ++ bad.typeName))) := by
  have h1 := writeEntries_append_ok ctx hex pre ((ns, key, bad) :: post) k hpre
  have h2 : writeEntries ctx (k + if ctx.dryRun then 0 else pre.length)
      ((ns, key, bad) :: post) =
      ([], k + (if ctx.dryRun then 0 else pre.length),
       some (.typeError ("Unsupported value type: " ++ bad.typeName))) := by
    simp [writeEntries, hb]
  simp [handle_system_defaults, hc, h1, h2]

/-- C5 witness: `{"ns": {"a": 1, "b": [], "c": 2}}` in apply mode — the
entry `a` is described and executed, then the unsupported `[]` at `b`
raises `TypeError` before anything for `b` or `c` happens. -/
theorem C5_defaults_unsupported_value_witness :
    handle_system_defaults ⟨false, fun _ => 0⟩ 0
        (.dict [("ns", .dict [("a", .int 1), ("b", .list []), ("c", .int 2)])]) =
      ([.print ".system.defaults: executing defaults write ns a 1",
        .run ["defaults", "write", "ns", "a", "1"] none true],
       1, some (.typeError "Unsupported value type: list")) :=
  C5_defaults_unsupported_value ⟨false, fun _ => 0⟩ 0 _
    [("ns", "a", .int 1)] [("ns", "c", .int 2)] "ns" "b" (.list [])
    rfl rfl (fun e he => by rcases List.mem_singleton.mp he with rfl; rfl)
    (Or.inr fun _ => rfl)

/-- C8: in apply mode, once `brew bundle upgrade --file=-` (manifest on
stdin, `check=True`) exits 0, exactly one further action
`brew bundle cleanup --force` runs without `check`, and the run succeeds
whatever the cleanup's exit code (the oracle beyond index `k` is
arbitrary); in dry-run mode the cleanup action is not executed. -/
theorem C8_brew_cleanup_nonfatal (exits : Nat → Int) (k : Nat)
    (ts bs cs : List PyVal) (mas : List (String × PyVal))
    (h : exits k = 0) :
    handle_packages_homebrew ⟨false, exits⟩ k
        (.dict [("taps", .list ts), ("brews", .list bs),
                ("casks", .list cs), ("mas_apps", .dict mas)]) =
      ([.print (brewfileMsg ("\n".intercalate (brewfile_lines ts bs cs mas))),
        .run ["brew", "bundle", "upgrade", "--file=-"]
          (some ("\n".intercalate (brewfile_lines ts bs cs mas))) true,
        .run ["brew", "bundle", "cleanup", "--force"] none false],
       k + 2, none) ∧
    handle_packages_homebrew ⟨true, exits⟩ k
        (.dict [("taps", .list ts), ("brews", .list bs),
                ("casks", .list cs), ("mas_apps", .dict mas)]) =
      ([.print (brewfileMsg ("\n".intercalate (brewfile_lines ts bs cs mas)))],
       k, none) := by
  constructor
  · simp [handle_packages_homebrew, dictGetD, dictGet, List.find?, h]
  · simp [handle_packages_homebrew, dictGetD, dictGet, List.find?]

/-- C8 witness: the cleanup process exits 7, and the run still succeeds
with the cleanup invoked after the successful upgrade. -/
theorem C8_brew_cleanup_nonfatal_witness :
    handle_packages_homebrew ⟨false, fun n => if n = 1 then 7 else 0⟩ 0
        (.dict [("taps", .list []), ("brews", .list []),
                ("casks", .list []), ("mas_apps", .dict [])]) =
      ([.print (brewfileMsg ""),
        .run ["brew", "bundle", "upgrade", "--file=-"] (some "") true,
        .run ["brew", "bundle", "cleanup", "--force"] none false],
       2, none) :=
  (C8_brew_cleanup_nonfatal (fun n => if n = 1 then 7 else 0) 0 [] [] [] [] rfl).1

/-- C9: when some namespace's value is not a mapping, the shape `TypeError`
is raised during the entry-collection pass, before any entry of any
namespace — earlier well-formed ones included — is described or executed:
the event trace is empty and the process counter untouched. -/
theorem C9_namespace_shape_error_atomic (ctx : Ctx) (k : Nat)
    (kvs : List (String × PyVal)) (h : ∃ p ∈ kvs, p.2.isDict = false) :
    ∃ m, handle_system_defaults ctx k (.dict kvs) = ([], k, some (.typeError m)) := by
  obtain ⟨m, hm⟩ := collectEntries_error_of_nondict kvs h
  exact ⟨m, by simp [handle_system_defaults, hm]⟩

/-- C9 witness: a well-formed namespace precedes a malformed one, in apply
mode; nothing at all is described or executed. -/
theorem C9_namespace_shape_error_atomic_witness :
    ∃ m, handle_system_defaults ⟨false, fun _ => 0⟩ 0
        (.dict [("good", PyVal.dict [("k", PyVal.int 1)]), ("bad", PyVal.str "x")]) =
      ([], 0, some (.typeError m)) :=
  C9_namespace_shape_error_atomic ⟨false, fun _ => 0⟩ 0 _
    ⟨("bad", PyVal.str "x"), List.mem_cons_of_mem _ (List.mem_cons_self _ _), rfl⟩

/-- C10: the values of `mas_apps` are never type-checked — for every value,
numeric or not, the manifest line is `mas <json(name)>, id: <json(value)>`
and compilation succeeds; in particular a string id is emitted quoted
(`jsonDumps` of the string `"123"` is `"\"123\""`), not rejected. -/
theorem C10_mas_ids_unchecked (exits : Nat → Int) (k : Nat)
    (mas : List (String × PyVal)) :
    handle_packages_homebrew ⟨true, exits⟩ k (.dict [("mas_apps", .dict mas)]) =
      ([.print (brewfileMsg ("\n".intercalate
          (mas.map (fun p => "mas " ++ jsonDumpsStr p.1 ++ ", id: " ++ jsonDumps p.2))))],
       k, none) ∧
    jsonDumps (.str "123") = "\"123\"" :=
  ⟨rfl, rfl⟩

end Blueprint
